import Mathlib

/-!
Verification development for the vehicle-damage detection-result
interpretation pipeline (file `detector.py`, class `DamageDetector`, plus
the cost aggregation in `api.py` and the constant in `config.py`).

The stateless interpretation logic is embedded shallowly:
- Python floats become rationals (`ℚ`); Python float division is exact
  rational division here.
- Python `int(...)` truncation toward zero becomes `pyInt`.
- The `ZeroDivisionError` a zero-area image would raise in
  `_estimate_severity` is made explicit through `Option`: `none` models the
  raised exception, `some s` a normal return.
- The remote inference call is external; `detect_damages` is embedded from
  the point where the parsed API `result` is in hand, as an
  `Option (List RawPred)`: `none` models a result without a `predictions`
  key, `some preds` a result with that key bound to the prediction list.
-/

namespace VDD

/-- The three severity strings `'minor' | 'moderate' | 'severe'` returned by
`DamageDetector._estimate_severity`. -/
inductive Severity where
| minor
| moderate
| severe
deriving DecidableEq, BEq, Repr

/-- `DamageDetector.DAMAGE_CLASSES`: the 23 damage class names. -/
def DAMAGE_CLASSES : List String :=
  ["bonnet-dent", "doorouter-dent", "doorouter-paint-trace", "doorouter-scratch",
   "fender-dent", "front-bumper-dent", "front-bumper-scratch", "Front-Windscreen-Damage",
   "Headlight-Damage", "Major-Rear-Bumper-Dent", "medium-Bodypanel-Dent", "paint-chip",
   "paint-trace", "pillar-dent", "quaterpanel-dent", "rear-bumper-dent",
   "rear-bumper-scratch", "Rear-windscreen-Damage", "roof-dent", "RunningBoard-Dent",
   "Sidemirror-Damage", "Signlight-Damage", "Taillight-Damage"]

/-- One row of `DamageDetector.REPAIR_COSTS`: the costs filed under the keys
`'minor'`, `'moderate'` and `'severe'`. -/
structure CostEntry where
  minor : Nat
  moderate : Nat
  severe : Nat
deriving DecidableEq, Repr

/-- Selecting the severity key from a cost row (the inner dictionary
lookup `[severity]`, always present in rows of the table). -/
def sevCost (e : CostEntry) : Severity → Nat
| .minor => e.minor
| .moderate => e.moderate
| .severe => e.severe

/-- `DamageDetector.REPAIR_COSTS`: the repair-cost matrix (USD), keyed by
damage class name. -/
def REPAIR_COSTS : List (String × CostEntry) :=
  [("bonnet-dent", ⟨150, 400, 800⟩),
   ("doorouter-dent", ⟨100, 350, 700⟩),
   ("fender-dent", ⟨120, 380, 750⟩),
   ("front-bumper-dent", ⟨100, 300, 600⟩),
   ("pillar-dent", ⟨200, 500, 1000⟩),
   ("quaterpanel-dent", ⟨150, 400, 800⟩),
   ("rear-bumper-dent", ⟨100, 300, 600⟩),
   ("roof-dent", ⟨200, 600, 1200⟩),
   ("medium-Bodypanel-Dent", ⟨150, 400, 900⟩),
   ("Major-Rear-Bumper-Dent", ⟨300, 700, 1500⟩),
   ("RunningBoard-Dent", ⟨80, 250, 500⟩),
   ("doorouter-scratch", ⟨50, 150, 400⟩),
   ("front-bumper-scratch", ⟨50, 150, 350⟩),
   ("rear-bumper-scratch", ⟨50, 150, 350⟩),
   ("doorouter-paint-trace", ⟨60, 180, 450⟩),
   ("paint-chip", ⟨40, 120, 300⟩),
   ("paint-trace", ⟨50, 150, 400⟩),
   ("Front-Windscreen-Damage", ⟨200, 500, 1000⟩),
   ("Rear-windscreen-Damage", ⟨200, 500, 1000⟩),
   ("Headlight-Damage", ⟨150, 400, 800⟩),
   ("Taillight-Damage", ⟨100, 300, 600⟩),
   ("Signlight-Damage", ⟨80, 200, 400⟩),
   ("Sidemirror-Damage", ⟨100, 300, 600⟩)]

/-- The cost lookup `self.REPAIR_COSTS.get(class_name, {}).get(severity, 100)`
performed in `detect_damages` (detector.py line 139): a class absent from the
table falls back to the empty dictionary, whose `.get` yields the default
cost 100 whatever the severity. -/
def lookupCost (class_name : String) (severity : Severity) : Nat :=
  match REPAIR_COSTS.lookup class_name with
  | none => 100
  | some e => sevCost e severity

/-- `config.py` line 17: `CONFIDENCE_THRESHOLD = 0.25` (default value of the
environment override). It is defined but never consulted by the
interpretation pipeline in `detector.py`. -/
def CONFIDENCE_THRESHOLD : ℚ := 25 / 100

/-- Python `int(x)` on a float: truncation toward zero. -/
def pyInt (q : ℚ) : Int :=
  if 0 ≤ q then ⌊q⌋ else ⌈q⌉

/-- The center-form to corner-form conversion in `detect_damages`
(detector.py lines 127-130):
`x1 = int(x_center - width / 2)` and so on. -/
def corners (x y width height : ℚ) : Int × Int × Int × Int :=
  (pyInt (x - width / 2), pyInt (y - height / 2),
   pyInt (x + width / 2), pyInt (y + height / 2))

/-- Modelled from the spec: the spec's own description of the conversion,
`x1 = round(xc - w/2)` with rounding to nearest integer — stated here only
to be compared against `corners`, which embeds the source. -/
def corners_rounded (x y width height : ℚ) : Int × Int × Int × Int :=
  (round (x - width / 2), round (y - height / 2),
   round (x + width / 2), round (y + height / 2))

/-- `critical_types` in `_estimate_severity` (detector.py lines 170-171). -/
def critical_types : List String :=
  ["Major-Rear-Bumper-Dent", "Front-Windscreen-Damage", "Rear-windscreen-Damage"]

/-- `damage_ratio = bbox_area / img_area` of detector.py lines 165-167,
with `bbox_area = (x2 - x1) * (y2 - y1)` and `img_area = h * w`, as an exact
rational quotient. -/
def damage_fraction (x1 y1 x2 y2 : Int) (h w : Nat) : ℚ :=
  (((x2 - x1) * (y2 - y1) : Int) : ℚ) / ((h * w : Nat) : ℚ)

/-- `DamageDetector._estimate_severity` (detector.py lines 151-187).
`none` models the `ZeroDivisionError` raised by
`damage_ratio = bbox_area / img_area` when `img_area = h * w` is zero;
otherwise the threshold cascade runs on `damage_fraction`, the exact
rational value of that quotient. -/
def estimate_severity (x1 y1 x2 y2 : Int) (damage_class : String)
    (h w : Nat) : Option Severity :=
  if h * w = 0 then none
  else
    let frac : ℚ := damage_fraction x1 y1 x2 y2 h w
    if damage_class ∈ critical_types then
      if frac > 5 / 100 then some .severe
      else if frac > 2 / 100 then some .moderate
      else some .minor
    else
      if frac > 8 / 100 then some .severe
      else if frac > 3 / 100 then some .moderate
      else some .minor

/-- One entry of `result['predictions']` as read by `detect_damages`:
fields `x`, `y`, `width`, `height` (center-form box), `class` (here `cls`,
since `class` is reserved) and `confidence`. -/
structure RawPred where
  x : ℚ
  y : ℚ
  width : ℚ
  height : ℚ
  cls : String
  confidence : ℚ
deriving DecidableEq, Repr

/-- One record appended to `detections` by `detect_damages`
(detector.py lines 141-147). -/
structure Detection where
  bbox : Int × Int × Int × Int
  confidence : ℚ
  cls : String
  severity : Severity
  estimated_cost : Nat
deriving DecidableEq, Repr

/-- The per-prediction body of the loop in `detect_damages`
(detector.py lines 122-147): corner conversion, severity estimation, cost
lookup, record assembly. `none` propagates the severity estimator's
division error. -/
def build_detection (h w : Nat) (pred : RawPred) : Option Detection :=
  let c := corners pred.x pred.y pred.width pred.height
  (estimate_severity c.1 c.2.1 c.2.2.1 c.2.2.2 pred.cls h w).map fun severity =>
    { bbox := c
      confidence := pred.confidence
      cls := pred.cls
      severity := severity
      estimated_cost := lookupCost pred.cls severity }

/-- The `for pred in result['predictions']` loop of `detect_damages`,
building the detection list in input order; an exception from any iteration
aborts the whole call (`none`). -/
def build_list (h w : Nat) : List RawPred → Option (List Detection)
| [] => some []
| pred :: rest =>
  match build_detection h w pred, build_list h w rest with
  | some d, some ds => some (d :: ds)
  | _, _ => none

/-- `DamageDetector.detect_damages` (detector.py lines 117-149), from the
point where the parsed API result is in hand: `none` for the result models a
missing `predictions` key (the `if 'predictions' in result` guard fails and
the empty `detections` list is returned); `some preds` runs the loop. -/
def detect_damages (result : Option (List RawPred)) (h w : Nat) :
    Option (List Detection) :=
  match result with
  | none => some []
  | some preds => build_list h w preds

/-- `total_cost = sum(d['estimated_cost'] for d in detections)`
(api.py line 98). -/
def estimated_total_cost (detections : List Detection) : Nat :=
  (detections.map fun d => d.estimated_cost).sum

/-- The result dictionary of `DamageDetector.compare_images`
(detector.py lines 259-265). -/
structure ComparisonResult where
  pickup_damages : List Detection
  return_damages : List Detection
  new_damages : List Detection
  total_new_cost : Nat
  summary : String
deriving Repr

/-- The diffing part of `DamageDetector.compare_images`
(detector.py lines 250-265), taking the two already-built detection lists
(the two `detect_damages` calls on the images precede this logic):
a return-side detection `d` is kept as new when
`d['class'] not in pickup_classes or
 pickup_classes.count(d['class']) < return_classes.count(d['class'])`. -/
def compare_damages (pickup_damages return_damages : List Detection) :
    ComparisonResult :=
  let pickup_classes := pickup_damages.map fun d => d.cls
  let return_classes := return_damages.map fun d => d.cls
  let new_damages := return_damages.filter fun d =>
    !(pickup_classes.contains d.cls) ||
      decide (pickup_classes.count d.cls < return_classes.count d.cls)
  let total_new_cost := (new_damages.map fun d => d.estimated_cost).sum
  { pickup_damages := pickup_damages
    return_damages := return_damages
    new_damages := new_damages
    total_new_cost := total_new_cost
    summary := "Found " ++ toString new_damages.length ++
      " new damage(s). Estimated cost: $" ++ toString total_new_cost }

/-- A pixel value; drawing writes PIL color names (`'yellow'`, `'red'`, ...)
into the raster, so a pixel is modelled as the color it holds. -/
def Color := String
deriving DecidableEq, BEq

/-- A PIL image: dimensions plus the pixel raster. -/
structure Img where
  width : Nat
  height : Nat
  px : Int → Int → Color

/-- `image.copy()`: a fresh image with the same dimensions and pixel
content (value equality; the original is untouched). -/
def Img.copy (im : Img) : Img :=
  { width := im.width, height := im.height, px := im.px }

/-- Whether pixel `(i, j)` lies inside the drawable raster (PIL clips
drawing to the image bounds). -/
def Img.inBounds (im : Img) (i j : Int) : Prop :=
  0 ≤ i ∧ i < im.width ∧ 0 ≤ j ∧ j < im.height

instance (im : Img) (i j : Int) : Decidable (im.inBounds i j) := by
  unfold Img.inBounds; infer_instance

/-- `draw.rectangle([x1, y1, x2, y2], outline=color, width=lw)`: paints the
pixels of the rectangle's border band, `lw` pixels thick, growing inward
from each side, clipped to the image. -/
def drawRectOutline (im : Img) (x1 y1 x2 y2 : Int) (color : Color)
    (lw : Nat) : Img :=
  { im with px := fun i j =>
      if im.inBounds i j ∧ x1 ≤ i ∧ i ≤ x2 ∧ y1 ≤ j ∧ j ≤ y2 ∧
          (i < x1 + lw ∨ x2 - lw < i ∨ j < y1 + lw ∨ y2 - lw < j)
      then color else im.px i j }

/-- `draw.rectangle([x1, y1, x2, y2], fill=color)`: paints every pixel of
the rectangle, clipped to the image. -/
def drawRectFill (im : Img) (x1 y1 x2 y2 : Int) (color : Color) : Img :=
  { im with px := fun i j =>
      if im.inBounds i j ∧ x1 ≤ i ∧ i ≤ x2 ∧ y1 ≤ j ∧ j ≤ y2
      then color else im.px i j }

/-- Modelled from the spec: `draw.text((x, y), label, fill=color, font=font)`
— glyph rasterization lives in PIL's font machinery, an external
collaborator the spec puts out of scope, so the text is modelled as painting
its fill color over the label's glyph box (10 pixels per character, 20
pixels tall, matching the strip geometry the source allocates). -/
def drawText (im : Img) (x y : Int) (label : String) (color : Color) : Img :=
  { im with px := fun i j =>
      if im.inBounds i j ∧ x ≤ i ∧ i < x + 10 * label.length ∧ y ≤ j ∧
          j < y + 20
      then color else im.px i j }

/-- Modelled from the spec: the f-string `f"{confidence*100:.1f}"` — the
decimal rendering of the percentage to one decimal place is done by
Python's float formatter, external to src/; modelled as the rounded value
`n = round(10 * percentage)` printed as `n / 10 . n mod 10`. -/
def pctString (percentage : ℚ) : String :=
  let n : Int := round (10 * percentage)
  toString (n / 10) ++ "." ++ toString (n % 10)

/-- The label `f"{class_name} ({confidence*100:.1f}%)"` of
detector.py line 229. -/
def labelOf (d : Detection) : String :=
  d.cls ++ " (" ++ pctString (d.confidence * 100) ++ "%)"

/-- The default severity color map of `draw_detections`
(detector.py lines 202-207). -/
def default_color_map : List (Severity × Color) :=
  [(.minor, "yellow"), (.moderate, "orange"), (.severe, "red")]

/-- The per-detection body of the drawing loop (detector.py lines 217-231):
`color = color_map.get(severity, 'red')`, the box outline of width 3, the
filled label strip `[x1, y1-25, x1+len(label)*10, y1]`, and the label text
at `(x1+5, y1-22)` in white. -/
def drawOne (color_map : List (Severity × Color)) (im : Img)
    (det : Detection) : Img :=
  let x1 := det.bbox.1
  let y1 := det.bbox.2.1
  let x2 := det.bbox.2.2.1
  let y2 := det.bbox.2.2.2
  let color := (color_map.lookup det.severity).getD "red"
  let label := labelOf det
  let im1 := drawRectOutline im x1 y1 x2 y2 color 3
  let im2 := drawRectFill im1 x1 (y1 - 25) (x1 + 10 * label.length) y1 color
  drawText im2 (x1 + 5) (y1 - 22) label "white"

/-- `DamageDetector.draw_detections` (detector.py lines 189-233): defaults
the color map when `None` is passed, copies the input image, then draws
every detection on the copy and returns it. The input image itself is never
written to — only the copy is. -/
def draw_detections (image : Img) (detections : List Detection)
    (color_map : Option (List (Severity × Color))) : Img :=
  let cm := color_map.getD default_color_map
  detections.foldl (drawOne cm) image.copy

/-- A sample detection of class `bonnet-dent`, as `detect_damages` would
build it for a 10 by 10 box on a 480 by 640 image (ratio 100/307200,
standard thresholds, hence minor, cost 150). -/
def dA : Detection :=
  { bbox := (0, 0, 10, 10)
    confidence := 9 / 10
    cls := "bonnet-dent"
    severity := .minor
    estimated_cost := 150 }

/-- A sample detection of class `Headlight-Damage` (a 15 by 15 box on a
480 by 640 image: minor, cost 150). -/
def dB : Detection :=
  { bbox := (5, 5, 20, 20)
    confidence := 8 / 10
    cls := "Headlight-Damage"
    severity := .minor
    estimated_cost := 150 }

/-! ## Helper lemmas -/

/-- A severity is always one of the three tiers. -/
theorem severity_cases (s : Severity) :
    s = .minor ∨ s = .moderate ∨ s = .severe := by
  cases s <;> simp

/-- On an image of nonzero area the severity estimator returns normally,
with the value of its threshold cascade. -/
theorem estimate_severity_eq_some (x1 y1 x2 y2 : Int) (damage_class : String)
    (h w : Nat) (hne : h * w ≠ 0) :
    estimate_severity x1 y1 x2 y2 damage_class h w = some
      (if damage_class ∈ critical_types then
        if damage_fraction x1 y1 x2 y2 h w > 5 / 100 then .severe
        else if damage_fraction x1 y1 x2 y2 h w > 2 / 100 then .moderate
        else .minor
      else
        if damage_fraction x1 y1 x2 y2 h w > 8 / 100 then .severe
        else if damage_fraction x1 y1 x2 y2 h w > 3 / 100 then .moderate
        else .minor) := by
  simp only [estimate_severity, if_neg hne]
  split_ifs <;> rfl

/-- A box of nonpositive area has a nonpositive damage fraction. -/
theorem fraction_nonpos_of_area_nonpos (x1 y1 x2 y2 : Int) (h w : Nat)
    (hA : (x2 - x1) * (y2 - y1) ≤ 0) :
    damage_fraction x1 y1 x2 y2 h w ≤ 0 := by
  unfold damage_fraction
  apply div_nonpos_of_nonpos_of_nonneg
  · exact_mod_cast hA
  · positivity

/-- The new-damage filter of `compare_damages`, simplified: a return-side
detection is kept exactly when the return-list count of its class exceeds
the pickup-list count (the absent-from-pickup disjunct of the source
predicate is subsumed: an absent class has pickup count 0 and, the
detection itself being in the return list, return count at least 1). -/
theorem new_damages_eq_count_filter (pickup ret : List Detection) :
    (compare_damages pickup ret).new_damages =
      ret.filter fun d =>
        decide ((pickup.map fun x => x.cls).count d.cls <
          (ret.map fun x => x.cls).count d.cls) := by
  simp only [compare_damages]
  refine List.filter_congr fun d hd => ?_
  by_cases hc : d.cls ∈ pickup.map fun x => x.cls
  · have ht : (pickup.map fun x => x.cls).contains d.cls = true :=
      List.elem_iff.mpr hc
    rw [ht]
    rfl
  · have h2 : (pickup.map fun x => x.cls).contains d.cls = false := by
      rcases h : (pickup.map fun x => x.cls).contains d.cls with _ | _
      · exact h
      · exact absurd (List.elem_iff.mp h) hc
    have h0 : (pickup.map fun x => x.cls).count d.cls = 0 :=
      List.count_eq_zero.mpr hc
    have h1 : 0 < (ret.map fun x => x.cls).count d.cls :=
      List.count_pos_iff.mpr (List.mem_map_of_mem _ hd)
    have hdec : (pickup.map fun x => x.cls).count d.cls <
        (ret.map fun x => x.cls).count d.cls := by rw [h0]; exact h1
    rw [h2, decide_eq_true hdec]
    rfl

/-! ## Claim C1 -/

/-- Claim C1, counterexample: with pickup = [A] and return = [A, A]
(A of class `bonnet-dent`), the code puts BOTH return-side occurrences in
`new_damages`, not only the excess second one, so the claimed output [A]
is wrong. -/
theorem c1_counterexample :
    (compare_damages [dA] [dA, dA]).new_damages = [dA, dA] ∧
      ([dA, dA] : List Detection) ≠ [dA] :=
  ⟨rfl, by simp⟩

/-- Claim C1, amended: `compare` classifies as new every return-side
detection whose class occurs strictly more often in the return list than in
the pickup list — all of its occurrences, in return-list order, not only
the excess `r - p`; return-side detections of a class with `r ≤ p`
contribute nothing. Equivalently, `new_damages` is the return list filtered
by the per-class count comparison `p < r`. -/
theorem c1_new_damages_all_occurrences (pickup ret : List Detection) :
    (compare_damages pickup ret).new_damages =
      ret.filter fun d =>
        decide ((pickup.map fun x => x.cls).count d.cls <
          (ret.map fun x => x.cls).count d.cls) :=
  new_damages_eq_count_filter pickup ret

/-! ## Claim C5 -/

/-- Claim C5: `compare` never reports a class whose return count does not
exceed its pickup count (no under-reported pre-existing damage becomes
new), and every return-side detection of a class absent from pickup is in
`new_damages`. -/
theorem c5_compare_soundness (pickup ret : List Detection) (C : String) :
    ((ret.map fun d => d.cls).count C ≤ (pickup.map fun d => d.cls).count C →
      ∀ d ∈ (compare_damages pickup ret).new_damages, d.cls ≠ C) ∧
    (∀ d ∈ ret, d.cls ∉ (pickup.map fun x => x.cls) →
      d ∈ (compare_damages pickup ret).new_damages) := by
  constructor
  · intro hle d hdmem heq
    rw [new_damages_eq_count_filter] at hdmem
    obtain ⟨hdret, hp⟩ := List.mem_filter.mp hdmem
    rw [heq] at hp
    exact absurd (of_decide_eq_true hp) (not_lt.mpr hle)
  · intro d hdret hnot
    rw [new_damages_eq_count_filter]
    refine List.mem_filter.mpr ⟨hdret, decide_eq_true ?_⟩
    have h0 : (pickup.map fun x => x.cls).count d.cls = 0 :=
      List.count_eq_zero.mpr hnot
    rw [h0]
    exact List.count_pos_iff.mpr (List.mem_map_of_mem _ hdret)

/-- Claim C5, witness: pickup = [A, A], return = [A] yields no new damage
of class `bonnet-dent`; pickup = [], return = [B] reports B as new. -/
theorem c5_witness :
    (∀ d ∈ (compare_damages [dA, dA] [dA]).new_damages,
      d.cls ≠ "bonnet-dent") ∧
    dB ∈ (compare_damages [] [dB]).new_damages :=
  ⟨(c5_compare_soundness [dA, dA] [dA] "bonnet-dent").1 (by decide),
   (c5_compare_soundness [] [dB] "bonnet-dent").2 dB
     (List.mem_singleton.mpr rfl) (by simp)⟩

/-! ## Claim C2 -/

/-- Claim C2, counterexample: the degenerate box
`(x1, y1, x2, y2) = (640, 480, 0, 0)` (both corner pairs inverted) has
positive computed area `(0 - 640) * (0 - 480) = 307200`, so on a
480 by 640 image the estimator returns severe, not the claimed minor. -/
theorem c2_counterexample :
    estimate_severity 640 480 0 0 "bonnet-dent" 480 640 =
        some Severity.severe ∧
      Severity.severe ≠ Severity.minor :=
  ⟨by norm_num [estimate_severity, damage_fraction, critical_types],
   by simp⟩

/-- Claim C2, amended: on an image of positive area, severity is determined
by the damage ratio and membership of the class in the critical set — a
critical class yields severe when ratio > 0.05, moderate when
0.02 < ratio <= 0.05, else minor; any other class yields severe when
ratio > 0.08, moderate when 0.03 < ratio <= 0.08, else minor (a ratio
exactly at a threshold falling into the lower tier) — and a zero-area or
NEGATIVE-area box always yields minor. A degenerate box with both corner
pairs inverted, however, has positive computed area and is classified by
the thresholds like any other box. -/
theorem c2_severity_thresholds (x1 y1 x2 y2 : Int) (cls : String)
    (h w : Nat) (hh : 0 < h) (hw : 0 < w) :
    ∃ s, estimate_severity x1 y1 x2 y2 cls h w = some s ∧
      (cls ∈ critical_types →
        (5 / 100 < damage_fraction x1 y1 x2 y2 h w → s = .severe) ∧
        (2 / 100 < damage_fraction x1 y1 x2 y2 h w →
          damage_fraction x1 y1 x2 y2 h w ≤ 5 / 100 → s = .moderate) ∧
        (damage_fraction x1 y1 x2 y2 h w ≤ 2 / 100 → s = .minor)) ∧
      (cls ∉ critical_types →
        (8 / 100 < damage_fraction x1 y1 x2 y2 h w → s = .severe) ∧
        (3 / 100 < damage_fraction x1 y1 x2 y2 h w →
          damage_fraction x1 y1 x2 y2 h w ≤ 8 / 100 → s = .moderate) ∧
        (damage_fraction x1 y1 x2 y2 h w ≤ 3 / 100 → s = .minor)) ∧
      ((x2 - x1) * (y2 - y1) ≤ 0 → s = .minor) := by
  have hne : h * w ≠ 0 := Nat.mul_ne_zero hh.ne' hw.ne'
  refine ⟨_, estimate_severity_eq_some x1 y1 x2 y2 cls h w hne, ?_, ?_, ?_⟩
  · intro hc
    rw [if_pos hc]
    refine ⟨fun h5 => ?_, fun h2 h5 => ?_, fun h2 => ?_⟩
    · rw [if_pos h5]
    · rw [if_neg (not_lt.mpr h5), if_pos h2]
    · rw [if_neg (not_lt.mpr (h2.trans (by norm_num))),
        if_neg (not_lt.mpr h2)]
  · intro hc
    rw [if_neg hc]
    refine ⟨fun h8 => ?_, fun h3 h8 => ?_, fun h3 => ?_⟩
    · rw [if_pos h8]
    · rw [if_neg (not_lt.mpr h8), if_pos h3]
    · rw [if_neg (not_lt.mpr (h3.trans (by norm_num))),
        if_neg (not_lt.mpr h3)]
  · intro hA
    have h0 : damage_fraction x1 y1 x2 y2 h w ≤ 0 :=
      fraction_nonpos_of_area_nonpos x1 y1 x2 y2 h w hA
    split_ifs with hcrit h5 h2 h8 h3
    · exact absurd h5 (not_lt.mpr (h0.trans (by norm_num)))
    · exact absurd h2 (not_lt.mpr (h0.trans (by norm_num)))
    · rfl
    · exact absurd h8 (not_lt.mpr (h0.trans (by norm_num)))
    · exact absurd h3 (not_lt.mpr (h0.trans (by norm_num)))
    · rfl

/-- Claim C2, witness: the amended theorem applied to a concrete
100 by 100 box of class `front-bumper-dent` on a 480 by 640 image. -/
theorem c2_witness :
    ∃ s, estimate_severity 0 0 100 100 "front-bumper-dent" 480 640 =
      some s := by
  obtain ⟨s, hs, -, -, -⟩ :=
    c2_severity_thresholds 0 0 100 100 "front-bumper-dent" 480 640
      (by decide) (by decide)
  exact ⟨s, hs⟩

/-! ## Claim C3 -/

/-- Claim C3, counterexample: for the raw box centered at `(200, 200)` with
`width = 100.6` and `height = 100`, the code computes
`x1 = int(200 - 50.3) = int(149.7) = 149` while rounding to nearest gives
`round(149.7) = 150`, so the corner-form box differs from the claimed
rounded one. -/
theorem c3_counterexample :
    corners 200 200 (503 / 5) 100 = (149, 150, 250, 250) ∧
      corners_rounded 200 200 (503 / 5) 100 = (150, 150, 250, 250) ∧
      ((149, 150, 250, 250) : Int × Int × Int × Int) ≠
        (150, 150, 250, 250) :=
  ⟨by norm_num [corners, pyInt],
   by norm_num [corners_rounded, round_eq],
   by decide⟩

/-- Claim C3, amended: the corner-form bounding box is obtained from the
center form by Python `int()` truncation toward zero — equal to the FLOOR
of `xc - w/2` (and the three analogous values) whenever that value is
nonnegative, as it is everywhere on the image — not by rounding to the
nearest integer. -/
theorem c3_corners_floor (x y width height : ℚ)
    (h1 : 0 ≤ x - width / 2) (h2 : 0 ≤ y - height / 2)
    (h3 : 0 ≤ x + width / 2) (h4 : 0 ≤ y + height / 2) :
    corners x y width height =
      (⌊x - width / 2⌋, ⌊y - height / 2⌋,
       ⌊x + width / 2⌋, ⌊y + height / 2⌋) := by
  simp only [corners, pyInt, if_pos h1, if_pos h2, if_pos h3, if_pos h4]

/-- Claim C3, witness: the amended theorem at the concrete box centered at
`(200, 200)` with width and height 100. -/
theorem c3_witness :
    corners 200 200 100 100 =
      (⌊(200 : ℚ) - 100 / 2⌋, ⌊(200 : ℚ) - 100 / 2⌋,
       ⌊(200 : ℚ) + 100 / 2⌋, ⌊(200 : ℚ) + 100 / 2⌋) :=
  c3_corners_floor 200 200 100 100 (by norm_num) (by norm_num)
    (by norm_num) (by norm_num)

/-! ## Claim C4 -/

/-- Claim C4: for every class present in the cost table (in particular all
23 defined classes, as the witness's membership discharge shows the table
covers them) and every severity, the cost lookup returns the exact table
entry; for every class absent from the table it returns the fallback 100
regardless of severity. The lookup is a total function — it never
raises. -/
theorem c4_cost_lookup (c : String) (s : Severity) :
    (c ∈ DAMAGE_CLASSES →
      ∃ e, REPAIR_COSTS.lookup c = some e ∧ lookupCost c s = sevCost e s) ∧
    (REPAIR_COSTS.lookup c = none → lookupCost c s = 100) := by
  constructor
  · intro hc
    fin_cases hc <;> exact ⟨_, rfl, by cases s <;> rfl⟩
  · intro hn
    simp only [lookupCost, hn]

/-- Claim C4, witness: `bonnet-dent` at severity severe reads its exact
table row; the undefined class `rust-patch` falls back to 100. -/
theorem c4_witness :
    (∃ e, REPAIR_COSTS.lookup "bonnet-dent" = some e ∧
      lookupCost "bonnet-dent" Severity.severe = sevCost e Severity.severe) ∧
    lookupCost "rust-patch" Severity.minor = 100 :=
  ⟨(c4_cost_lookup "bonnet-dent" Severity.severe).1 (by decide),
   (c4_cost_lookup "rust-patch" Severity.minor).2 (by decide)⟩

/-! ## Claim C6 -/

/-- Claim C6: on a 640 by 480 image (PIL size 640 x 480, numpy shape
h = 480, w = 640), a raw prediction of class `front-bumper-dent` with
width = height = 100 centered at (200, 200) builds the Detection with bbox
(150, 150, 250, 250), severity moderate and estimated cost 300, whatever
its confidence; the damage ratio involved is 10000 / 307200
(about 0.0325). -/
theorem c6_scenario (conf : ℚ) :
    build_detection 480 640
        { x := 200, y := 200, width := 100, height := 100,
          cls := "front-bumper-dent", confidence := conf } =
      some { bbox := (150, 150, 250, 250), confidence := conf,
             cls := "front-bumper-dent", severity := .moderate,
             estimated_cost := 300 } ∧
    damage_fraction 150 150 250 250 480 640 = 10000 / 307200 := by
  constructor
  · norm_num [build_detection, corners, pyInt, estimate_severity,
      damage_fraction, critical_types, lookupCost, sevCost]
    decide
  · norm_num [damage_fraction]

/-! ## Claim C7 -/

/-- Claim C7: rendering is pure — it returns a fresh image built from a
copy of the input, whose pixel content it never writes back — and with an
empty detection list the result is pixel-identical to the input, so
rendering its own output again with an empty list is the identity on
pixels. -/
theorem c7_render_empty_identity (image : Img)
    (color_map : Option (List (Severity × Color))) :
    draw_detections image [] color_map = image ∧
    draw_detections (draw_detections image [] color_map) [] color_map =
      draw_detections image [] color_map :=
  ⟨rfl, rfl⟩

/-! ## Claim C8 -/

/-- Claim C8: an inference result with no `predictions` field and one with
an empty predictions list both yield the empty detection list, no error
raised on any image size, and the total estimated cost of an empty
detection list is 0. -/
theorem c8_empty_is_valid (h w : Nat) :
    detect_damages none h w = some [] ∧
    detect_damages (some []) h w = some [] ∧
    estimated_total_cost [] = 0 :=
  ⟨rfl, rfl, rfl⟩

/-! ## Claim C9 -/

/-- Claim C9: whenever `detect_damages` returns normally it returns exactly
one Detection per raw prediction, in input order — position `i` of the
output is the built detection of position `i` of the input, for every
prediction list, so nothing is sorted, merged, deduplicated or filtered by
confidence (the correspondence holds whatever the confidences are, in
particular below `CONFIDENCE_THRESHOLD`, which the pipeline never
consults). -/
theorem c9_one_detection_per_prediction (preds : List RawPred) (h w : Nat)
    (dets : List Detection)
    (hd : detect_damages (some preds) h w = some dets) :
    dets.length = preds.length ∧
      ∀ i : Nat, dets[i]? = (preds[i]?).bind (build_detection h w) := by
  simp only [detect_damages] at hd
  induction preds generalizing dets with
  | nil =>
    simp only [build_list] at hd
    cases hd
    exact ⟨rfl, fun i => by simp⟩
  | cons p rest ih =>
    simp only [build_list] at hd
    cases hb : build_detection h w p with
    | none => rw [hb] at hd; exact absurd hd (by simp)
    | some d =>
      cases hr : build_list h w rest with
      | none => rw [hb, hr] at hd; exact absurd hd (by simp)
      | some ds =>
        rw [hb, hr] at hd
        cases hd
        obtain ⟨hlen, hget⟩ := ih ds hr
        refine ⟨by simpa using hlen, fun i => ?_⟩
        cases i with
        | zero => simpa using hb.symm
        | succ j => simpa using hget j

/-- Claim C9, witness: a single prediction whose confidence 0.1 lies below
`CONFIDENCE_THRESHOLD = 0.25` still yields exactly one detection. -/
theorem c9_witness :
    (1 : ℚ) / 10 < CONFIDENCE_THRESHOLD ∧
    ([{ bbox := (150, 150, 250, 250), confidence := 1 / 10,
        cls := "front-bumper-dent", severity := .moderate,
        estimated_cost := 300 }] : List Detection).length =
      ([{ x := 200, y := 200, width := 100, height := 100,
          cls := "front-bumper-dent", confidence := 1 / 10 }] :
        List RawPred).length := by
  have hb : build_detection 480 640
      { x := 200, y := 200, width := 100, height := 100,
        cls := "front-bumper-dent", confidence := 1 / 10 } =
      some { bbox := (150, 150, 250, 250), confidence := 1 / 10,
             cls := "front-bumper-dent", severity := .moderate,
             estimated_cost := 300 } := by
    norm_num [build_detection, corners, pyInt, estimate_severity,
      damage_fraction, critical_types, lookupCost, sevCost]
    decide
  refine ⟨by norm_num [CONFIDENCE_THRESHOLD], ?_⟩
  exact (c9_one_detection_per_prediction _ 480 640 _
    (by simp only [detect_damages, build_list]; rw [hb])).1

/-! ## Claim C10 -/

/-- Claim C10: on any image with positive height and width the severity
estimator is total — it returns one of minor, moderate, severe for every
box, including degenerate and negative-area ones, the division-error
branch being unreachable — and a zero-area image is exactly the input on
which it is undefined (raises). -/
theorem c10_total_on_positive_area (x1 y1 x2 y2 : Int) (cls : String)
    (h w : Nat) :
    (0 < h → 0 < w →
      ∃ s, estimate_severity x1 y1 x2 y2 cls h w = some s ∧
        (s = .minor ∨ s = .moderate ∨ s = .severe)) ∧
    (h * w = 0 → estimate_severity x1 y1 x2 y2 cls h w = none) := by
  constructor
  · intro hh hw
    have hne : h * w ≠ 0 := Nat.mul_ne_zero hh.ne' hw.ne'
    exact ⟨_, estimate_severity_eq_some x1 y1 x2 y2 cls h w hne,
      severity_cases _⟩
  · intro h0
    simp only [estimate_severity, if_pos h0]

/-- Claim C10, witness: a negative-area box on a 480 by 640 image still
gets a severity, and the same box on a zero-height image hits the
division error. -/
theorem c10_witness :
    (∃ s, estimate_severity (-5) (-5) 5 5 "paint-chip" 480 640 = some s ∧
      (s = .minor ∨ s = .moderate ∨ s = .severe)) ∧
    estimate_severity (-5) (-5) 5 5 "paint-chip" 0 640 = none :=
  ⟨(c10_total_on_positive_area (-5) (-5) 5 5 "paint-chip" 480 640).1
      (by decide) (by decide),
   (c10_total_on_positive_area (-5) (-5) 5 5 "paint-chip" 0 640).2 rfl⟩

end VDD
